import Mathlib

/-!
Verification of the map_plotter repository (src/osm_helpers.py, src/osm_plotter.py).

The Python functions are shallowly embedded:
real (numpy float) arithmetic becomes exact real arithmetic over ℝ;
the Python builtin int(), which truncates toward zero, becomes pyTrunc;
file system, HTTP and JSON effects become explicit oracle functions and
state passing; Python exceptions become Except values.

Tile files are named tile_Z_X_Y.png with Z, X, Y decimal integers, so a
file path is in bijection with the integer triple (zoom, x, y); the file
store is therefore keyed by that triple.
-/

namespace MapPlotter

open scoped Real

/-- Python int() applied to a real: truncation toward zero. -/
noncomputable def pyTrunc (r : ℝ) : ℤ := if 0 ≤ r then ⌊r⌋ else ⌈r⌉

/-- osm_helpers.py line 7: maximum number of OSM tiles to download. -/
def MAX_TILE_COUNT : ℤ := 500

/-- osm_helpers.py line 10: OSM tile size in pixels. -/
def OSM_TILE_SIZE : ℕ := 256

/-- osm_helpers.py lines 13-33, calculate_zoom_level.
z_lon = ceil(log2(360/(max_lat-min_lat))); z_lat = ceil(log2(170.1023/(max_lon-min_lon)));
zoom_level = min(z_lon, z_lat) + 1; then min with 18, then max with 0; finally int(). -/
noncomputable def calculate_zoom_level (min_lon max_lon min_lat max_lat : ℝ) : ℤ :=
  pyTrunc (max (min (min ((⌈Real.logb 2 (360 / (max_lat - min_lat))⌉ : ℤ) : ℝ)
                         ((⌈Real.logb 2 (170.1023 / (max_lon - min_lon))⌉ : ℤ) : ℝ) + 1)
                    18)
               0)

/-- The zoom formula exactly as the specification words it: the integer
min(ceil(log2(360/dlat)), ceil(log2(170.1023/dlon))) + 1 clamped into the
range 0..18.  Stated separately to be compared with calculate_zoom_level. -/
noncomputable def calculate_zoom_level_spec (min_lon max_lon min_lat max_lat : ℝ) : ℤ :=
  max 0 (min 18 (min ⌈Real.logb 2 (360 / (max_lat - min_lat))⌉
                     ⌈Real.logb 2 (170.1023 / (max_lon - min_lon))⌉ + 1))

/-- osm_helpers.py lines 36-52, deg2xy: OSM global x,y coordinates from lat,lon degrees.
lat_rad = radians(lat); x = (lon+180)/360*2^zoom;
y = (1 - log(tan(lat_rad) + 1/cos(lat_rad))/pi)/2*2^zoom. -/
noncomputable def deg2xy (lat_deg lon_deg : ℝ) (zoom : ℕ) : ℝ × ℝ :=
  ((lon_deg + 180) / 360 * 2 ^ zoom,
   (1 - Real.log (Real.tan (lat_deg * π / 180) + 1 / Real.cos (lat_deg * π / 180)) / π)
     / 2 * 2 ^ zoom)

/-- osm_helpers.py lines 55-69, deg2tile_coord: int(x), int(y) of deg2xy. -/
noncomputable def deg2tile_coord (lat_deg lon_deg : ℝ) (zoom : ℕ) : ℤ × ℤ :=
  (pyTrunc (deg2xy lat_deg lon_deg zoom).1, pyTrunc (deg2xy lat_deg lon_deg zoom).2)

/-- osm_helpers.py lines 72-88, num2deg: lat,lon in degrees from OSM tile x,y.
lon = x/2^zoom*360 - 180; lat = degrees(arctan(sinh(pi*(1 - 2*y/2^zoom)))). -/
noncomputable def num2deg (x_tile y_tile : ℤ) (zoom : ℕ) : ℝ × ℝ :=
  (Real.arctan (Real.sinh (π * (1 - 2 * (y_tile : ℝ) / 2 ^ zoom))) * 180 / π,
   (x_tile : ℝ) / 2 ^ zoom * 360 - 180)

/-- The latitude component of num2deg as a function of a real argument;
num2deg evaluates this at the integer tile index. -/
noncomputable def gRad (t : ℝ) (zoom : ℕ) : ℝ :=
  Real.arctan (Real.sinh (π * (1 - 2 * t / 2 ^ zoom)))

/-- The round-trip property claimed for deg2tile_coord and num2deg:
with (xt, yt) = deg2tile_coord(lat, lon, zoom), (latN, lonW) = num2deg(xt, yt, zoom)
and latS = the latitude of num2deg(xt, yt+1, zoom) (the southern edge of the tile),
the claim asserts 0 <= lon - lonW <= 360/2^zoom and lat between latN and latS. -/
noncomputable def roundtrip_claim (lat lon : ℝ) (zoom : ℕ) : Prop :=
  0 ≤ lon - (num2deg (deg2tile_coord lat lon zoom).1 (deg2tile_coord lat lon zoom).2 zoom).2 ∧
  lon - (num2deg (deg2tile_coord lat lon zoom).1 (deg2tile_coord lat lon zoom).2 zoom).2 ≤
    360 / 2 ^ zoom ∧
  min (num2deg (deg2tile_coord lat lon zoom).1 ((deg2tile_coord lat lon zoom).2 + 1) zoom).1
      (num2deg (deg2tile_coord lat lon zoom).1 (deg2tile_coord lat lon zoom).2 zoom).1 ≤ lat ∧
  lat ≤ max (num2deg (deg2tile_coord lat lon zoom).1 ((deg2tile_coord lat lon zoom).2 + 1) zoom).1
            (num2deg (deg2tile_coord lat lon zoom).1 (deg2tile_coord lat lon zoom).2 zoom).1

/-! Grid assembler and tile fetcher models. -/

/-- A decoded raster image: row count, column count, channel count and a
pixel function indexed by (row, column, channel). -/
structure Image where
  rows : ℕ
  cols : ℕ
  channels : ℕ
  px : ℕ → ℕ → ℕ → ℝ

/-- The white placeholder tile written on fetch failure:
np.ones((OSM_TILE_SIZE, OSM_TILE_SIZE, 3)), osm_helpers.py line 164. -/
def blankTile : Image :=
  { rows := OSM_TILE_SIZE, cols := OSM_TILE_SIZE, channels := 3, px := fun _ _ _ => 1 }

/-- Content of a persisted tile file: raw downloaded bytes, or an image
written by plt.imsave. -/
inductive FileData where
  | bytes (b : List ℕ)
  | img (i : Image)

/-- The tile directory on disk, keyed by the (zoom, x, y) triple encoded in
the file name tile_Z_X_Y.png; none means the file does not exist. -/
def FS : Type := ℤ × ℤ × ℤ → Option FileData

/-- Result of one HTTP GET for a tile: an exception inside requests.get, or
a response carrying resp.ok and resp.content. -/
inductive NetResult where
  | transportError
  | response (ok : Bool) (content : List ℕ)

/-- The tile server as an oracle: the response obtained for the URL
url/zoom/x/y.png. -/
def Net : Type := ℤ → ℤ → ℤ → NetResult

/-- Whether a fetch outcome is a failure in the sense of the specification:
a transport failure or a non-success response. -/
def fetch_failed : NetResult → Bool
  | NetResult.transportError => true
  | NetResult.response ok _ => !ok

/-- osm_helpers.py lines 104-129, download_tile_file: on a requests exception
return False; on resp.ok write resp.content to the file and return True;
otherwise fall through, returning Python None.  The first component is the
data written (if any), the second the Python return value (None as none). -/
def download_tile_file : NetResult → Option FileData × Option Bool
  | NetResult.transportError => (none, some false)
  | NetResult.response true c => (some (FileData.bytes c), some true)
  | NetResult.response false _ => (none, none)

/-- Python truthiness of the value returned by download_tile_file. -/
def isTruthy : Option Bool → Bool
  | none => false
  | some b => b

/-- State threaded through the download loop: the tile directory, the list
of network requests issued (by tile key, in order) and the messages printed. -/
structure DLState where
  fs : FS
  reqs : List (ℤ × ℤ × ℤ)
  msgs : List String

/-- The x-outer, y-inner iteration order of the double loops in
osm_helpers.py lines 157-158 and osm_plotter.py lines 90-91. -/
def tileList (x_tile_min x_tile_max y_tile_min y_tile_max : ℤ) : List (ℤ × ℤ) :=
  (List.range (x_tile_max + 1 - x_tile_min).toNat).flatMap fun (ix : ℕ) =>
    (List.range (y_tile_max + 1 - y_tile_min).toNat).map fun (iy : ℕ) =>
      (x_tile_min + (ix : ℤ), y_tile_min + (iy : ℤ))

/-- One iteration of the download loop, osm_helpers.py lines 159-165:
skip if the tile file exists; otherwise issue the GET via
download_tile_file and, if it is falsy, write the white placeholder. -/
def processTile (net : Net) (zoom : ℤ) (st : DLState) (xy : ℤ × ℤ) : DLState :=
  let key : ℤ × ℤ × ℤ := (zoom, xy.1, xy.2)
  if (st.fs key).isSome then st
  else
    let dl := download_tile_file (net zoom xy.1 xy.2)
    let fs1 : FS := match dl.1 with
      | some d => Function.update st.fs key (some d)
      | none => st.fs
    if isTruthy dl.2 then
      { fs := fs1, reqs := st.reqs ++ [key], msgs := st.msgs }
    else
      { fs := Function.update fs1 key (some (FileData.img blankTile)),
        reqs := st.reqs ++ [key], msgs := st.msgs }

/-- osm_helpers.py lines 132-165, download_tiles_for_area: reject the range
when the tile count exceeds MAX_TILE_COUNT, otherwise run the double loop. -/
def download_tiles_for_area (net : Net)
    (x_tile_min x_tile_max y_tile_min y_tile_max zoom : ℤ) (fs : FS) : DLState :=
  if (x_tile_max - x_tile_min + 1) * (y_tile_max - y_tile_min + 1) > MAX_TILE_COUNT then
    { fs := fs, reqs := [], msgs := ["ERROR zoom value too high"] }
  else
    (tileList x_tile_min x_tile_max y_tile_min y_tile_max).foldl
      (processTile net zoom) { fs := fs, reqs := [], msgs := [] }

/-- The pixel block of tile (x, y) inside the supertile raster: rows
(y - y_min)*256 to +255 and columns (x - x_min)*256 to +255. -/
def inBlock (x_tile_min y_tile_min : ℤ) (xy : ℤ × ℤ) (i j : ℕ) : Prop :=
  ((xy.2 - y_tile_min) * (OSM_TILE_SIZE : ℤ)).toNat ≤ i ∧
  i < ((xy.2 - y_tile_min) * (OSM_TILE_SIZE : ℤ)).toNat + OSM_TILE_SIZE ∧
  ((xy.1 - x_tile_min) * (OSM_TILE_SIZE : ℤ)).toNat ≤ j ∧
  j < ((xy.1 - x_tile_min) * (OSM_TILE_SIZE : ℤ)).toNat + OSM_TILE_SIZE

instance (x_tile_min y_tile_min : ℤ) (xy : ℤ × ℤ) (i j : ℕ) :
    Decidable (inBlock x_tile_min y_tile_min xy i j) := by
  unfold inBlock; infer_instance

/-- One iteration of the supertile loop, osm_plotter.py lines 92-99: if the
tile file exists, decode it and copy its first three channels into the
block of (x, y); otherwise leave the accumulated raster unchanged. -/
def writeTile (x_tile_min y_tile_min zoom : ℤ) (tiles : ℤ × ℤ × ℤ → Option Image)
    (acc : ℕ → ℕ → ℕ → ℝ) (xy : ℤ × ℤ) : ℕ → ℕ → ℕ → ℝ :=
  match tiles (zoom, xy.1, xy.2) with
  | none => acc
  | some timg => fun i j c =>
      if inBlock x_tile_min y_tile_min xy i j ∧ c < 3 then
        timg.px (i - ((xy.2 - y_tile_min) * (OSM_TILE_SIZE : ℤ)).toNat)
                (j - ((xy.1 - x_tile_min) * (OSM_TILE_SIZE : ℤ)).toNat) c
      else acc i j c

/-- osm_plotter.py lines 69-100, combine_supertile: allocate a zero raster of
shape ((y_max-y_min+1)*256, (x_max-x_min+1)*256, 3) and copy each existing
tile image into its block.  The decoded tile files are abstracted by the
oracle tiles, keyed like the file store. -/
def combine_supertile (x_tile_min x_tile_max y_tile_min y_tile_max zoom : ℤ)
    (tiles : ℤ × ℤ × ℤ → Option Image) : Image :=
  { rows := ((y_tile_max - y_tile_min + 1) * (OSM_TILE_SIZE : ℤ)).toNat
    cols := ((x_tile_max - x_tile_min + 1) * (OSM_TILE_SIZE : ℤ)).toNat
    channels := 3
    px := (tileList x_tile_min x_tile_max y_tile_min y_tile_max).foldl
      (writeTile x_tile_min y_tile_min zoom tiles) (fun _ _ _ => 0) }

/-! Feature lookup client model. -/

/-- The geojson object of a lookup result.  The code reads only its
coordinates key; none models a JSON object in which the key is absent,
in particular the default empty object. -/
structure Geo where
  coordinates : Option (List (ℝ × ℝ))

/-- The default empty geojson object in osm_plotter.py line 25. -/
def emptyGeo : Geo := { coordinates := none }

/-- The dict returned by lookup_geojson_by_id: its type and geojson keys. -/
structure Det where
  dtype : String
  geojson : Geo

/-- One element of the parsed JSON array returned by nominatim; either key
may be absent (accessing an absent key raises KeyError). -/
structure Elem where
  etype : Option String
  egeo : Option Geo

/-- The body of a lookup response: either bytes that fail to parse as JSON,
or a parsed JSON array. -/
inductive Body where
  | malformed
  | arr (xs : List Elem)

/-- Outcome of one lookup HTTP GET. -/
inductive LookupResp where
  | transportError
  | resp (ok : Bool) (body : Body)

/-- The nominatim server as an oracle from the request parameters
(element type letter, osm id) to the response. -/
def LookupNet : Type := String → ℤ → LookupResp

/-- osm_plotter.py lines 13-37, lookup_geojson_by_id.  det starts as the
default; requests.get is not wrapped in try, so a transport error
propagates; json.loads raises on a malformed body; if the parsed array is
nonempty, det gets the first elements fields type and geojson (the guards
testing that the keys type and geojson are in det are always true, since
det is initialized with both keys).  Errors are modelled as Except.error
carrying the Python exception name. -/
def lookup_geojson_by_id : LookupResp → Except String Det
  | LookupResp.transportError => Except.error "requests.exceptions.RequestException"
  | LookupResp.resp ok body =>
      if ok then
        match body with
        | Body.malformed => Except.error "json.JSONDecodeError"
        | Body.arr [] => Except.ok { dtype := "", geojson := emptyGeo }
        | Body.arr (e :: _) =>
            match e.etype with
            | none => Except.error "KeyError: type"
            | some t =>
                match e.egeo with
                | none => Except.error "KeyError: geojson"
                | some g => Except.ok { dtype := t, geojson := g }
      else Except.ok { dtype := "", geojson := emptyGeo }

/-- The dict built by download_map_data_nominatim. -/
structure DataDict where
  ways : List (ℤ × Det)
  nodes : List (ℤ × Det)
  way_coords : List (ℝ × ℝ)
  node_coords : List (ℝ × ℝ)

/-- The per-id loop of osm_plotter.py lines 54-59 (and 60-65): look up each
id in order; on success append the id entry and extend the coordinate list
with dict[geojson][coordinates], which raises KeyError when the geojson
object has no coordinates key (as the default empty object does not).
Returns the requests issued, and on success the id entries and the
flattened coordinates. -/
def runIds (net : LookupNet) (etype : String) :
    List ℤ → List (String × ℤ) × Except String (List (ℤ × Det) × List (ℝ × ℝ))
  | [] => ([], Except.ok ([], []))
  | i :: rest =>
      match lookup_geojson_by_id (net etype i) with
      | Except.error e => ([(etype, i)], Except.error e)
      | Except.ok det =>
          match det.geojson.coordinates with
          | none => ([(etype, i)], Except.error "KeyError: coordinates")
          | some cs =>
              let r := runIds net etype rest
              ((etype, i) :: r.1,
               Except.map (fun p => ((i, det) :: p.1, cs ++ p.2)) r.2)

/-- osm_plotter.py lines 40-66, download_map_data_nominatim: process the way
ids (letter W), then the node ids (letter N); an exception aborts the call.
Returns the lookup requests issued (in order) and the resulting dict. -/
def download_map_data_nominatim (net : LookupNet) (way_ids node_ids : List ℤ) :
    List (String × ℤ) × Except String DataDict :=
  match runIds net "W" way_ids with
  | (wreqs, Except.error e) => (wreqs, Except.error e)
  | (wreqs, Except.ok wres) =>
      match runIds net "N" node_ids with
      | (nreqs, Except.error e) => (wreqs ++ nreqs, Except.error e)
      | (nreqs, Except.ok nres) =>
          (wreqs ++ nreqs,
           Except.ok { ways := wres.1, nodes := nres.1,
                       way_coords := wres.2, node_coords := nres.2 })

/-! Main pipeline model. -/

/-- The values computed by osm_plotter.py main, lines 113-120: the bounding
box of the way coordinates, the zoom level and the tile range corners. -/
structure MainCalc where
  min_lon : ℝ
  max_lon : ℝ
  min_lat : ℝ
  max_lat : ℝ
  zoom_level : ℕ
  x_tile_min : ℤ
  y_tile_max : ℤ
  x_tile_max : ℤ
  y_tile_min : ℤ

/-- osm_plotter.py main, lines 113-120.  np.min and np.max raise ValueError
on an empty list.  Line 117, which would call calculate_zoom_level, is
commented out in the source; line 118 assigns the constant 17.  Lines
119-120 derive the tile range corners with deg2tile_coord. -/
noncomputable def main_compute (way_coords : List (ℝ × ℝ)) : Except String MainCalc :=
  match way_coords with
  | [] => Except.error "ValueError: zero-size array to reduction operation"
  | c :: rest =>
      let min_lon := (rest.map Prod.fst).foldl min c.1
      let max_lon := (rest.map Prod.fst).foldl max c.1
      let min_lat := (rest.map Prod.snd).foldl min c.2
      let max_lat := (rest.map Prod.snd).foldl max c.2
      let zoom_level : ℕ := 17
      Except.ok
        { min_lon := min_lon, max_lon := max_lon, min_lat := min_lat, max_lat := max_lat
          zoom_level := zoom_level
          x_tile_min := (deg2tile_coord min_lat min_lon zoom_level).1
          y_tile_max := (deg2tile_coord min_lat min_lon zoom_level).2
          x_tile_max := (deg2tile_coord max_lat max_lon zoom_level).1
          y_tile_min := (deg2tile_coord max_lat max_lon zoom_level).2 }

/-! Helper lemmas. -/

lemma pyTrunc_of_nonneg {r : ℝ} (h : 0 ≤ r) : pyTrunc r = ⌊r⌋ := by
  unfold pyTrunc
  exact if_pos h

lemma pyTrunc_intCast (k : ℤ) : pyTrunc (k : ℝ) = k := by
  unfold pyTrunc
  split <;> simp

/-- Claim C2: for every bounding box with max_lon > min_lon and max_lat > min_lat,
calculate_zoom_level returns exactly the integer
min(ceil(log2(360/(max_lat-min_lat))), ceil(log2(170.1023/(max_lon-min_lon)))) + 1
clamped into the range 0..18. -/
theorem calculate_zoom_level_eq_spec (min_lon max_lon min_lat max_lat : ℝ)
    (hlon : min_lon < max_lon) (hlat : min_lat < max_lat) :
    calculate_zoom_level min_lon max_lon min_lat max_lat =
      calculate_zoom_level_spec min_lon max_lon min_lat max_lat := by
  unfold calculate_zoom_level calculate_zoom_level_spec
  rw [show (max (min (min ((⌈Real.logb 2 (360 / (max_lat - min_lat))⌉ : ℤ) : ℝ)
            ((⌈Real.logb 2 (170.1023 / (max_lon - min_lon))⌉ : ℤ) : ℝ) + 1) 18) 0) =
        ((max 0 (min 18 (min ⌈Real.logb 2 (360 / (max_lat - min_lat))⌉
            ⌈Real.logb 2 (170.1023 / (max_lon - min_lon))⌉ + 1)) : ℤ) : ℝ) by
      push_cast
      rw [max_comm, min_comm (18 : ℝ)]]
  exact pyTrunc_intCast _

/-- Witness for C2 at the concrete bounding box 13.3..13.5 by 52.5..52.6. -/
theorem calculate_zoom_level_eq_spec_witness :
    (13.3 : ℝ) < 13.5 ∧ (52.5 : ℝ) < 52.6 ∧
      calculate_zoom_level 13.3 13.5 52.5 52.6 =
        calculate_zoom_level_spec 13.3 13.5 52.5 52.6 :=
  ⟨by norm_num, by norm_num,
   calculate_zoom_level_eq_spec 13.3 13.5 52.5 52.6 (by norm_num) (by norm_num)⟩

/-- Claim C4: when the requested tile count exceeds 500, download_tiles_for_area
prints the diagnostic message, issues no network request, and leaves the
tile directory unchanged. -/
theorem download_tiles_rejects_large_range (net : Net)
    (x_tile_min x_tile_max y_tile_min y_tile_max zoom : ℤ) (fs : FS)
    (h : (x_tile_max - x_tile_min + 1) * (y_tile_max - y_tile_min + 1) > 500) :
    download_tiles_for_area net x_tile_min x_tile_max y_tile_min y_tile_max zoom fs =
      { fs := fs, reqs := [], msgs := ["ERROR zoom value too high"] } := by
  unfold download_tiles_for_area
  rw [if_pos]
  exact h

/-- Witness for C4: a 501-by-1 tile range is rejected with no request and
no file written. -/
theorem download_tiles_rejects_large_range_witness :
    ((0 : ℤ) + 500 - 0 + 1) * (0 - 0 + 1) > 500 ∧
      download_tiles_for_area (fun _ _ _ => NetResult.transportError)
          0 500 0 0 7 (fun _ => none) =
        { fs := fun _ => none, reqs := [], msgs := ["ERROR zoom value too high"] } :=
  ⟨by norm_num,
   by
    have h := download_tiles_rejects_large_range (fun _ _ _ => NetResult.transportError)
      0 500 0 0 7 (fun _ => none) (by norm_num)
    simpa using h⟩

/-! Download loop lemmas. -/

lemma key_inj {zoom : ℤ} {p q : ℤ × ℤ}
    (h : ((zoom, p.1, p.2) : ℤ × ℤ × ℤ) = (zoom, q.1, q.2)) : p = q := by
  cases p; cases q
  simpa [Prod.ext_iff] using h

lemma processTile_fs_other (net : Net) (zoom : ℤ) (st : DLState) (xy : ℤ × ℤ)
    (k : ℤ × ℤ × ℤ) (hk : k ≠ (zoom, xy.1, xy.2)) :
    (processTile net zoom st xy).fs k = st.fs k := by
  unfold processTile
  cases h1 : st.fs (zoom, xy.1, xy.2) with
  | some d => simp [h1]
  | none =>
    cases hnet : net zoom xy.1 xy.2 with
    | transportError =>
      simp [h1, hnet, download_tile_file, isTruthy, Function.update_noteq hk]
    | response ok c =>
      cases ok <;>
        simp [h1, hnet, download_tile_file, isTruthy, Function.update_noteq hk]

lemma processTile_inv_some (net : Net) (zoom : ℤ) (st : DLState) (xy : ℤ × ℤ)
    (k : ℤ × ℤ × ℤ) (d : FileData) (h : st.fs k = some d) :
    (processTile net zoom st xy).fs k = some d := by
  rcases eq_or_ne k (zoom, xy.1, xy.2) with rfl | hk
  · unfold processTile
    simp [h]
  · rw [processTile_fs_other net zoom st xy k hk]
    exact h

lemma foldl_fs_some (net : Net) (zoom : ℤ) (l : List (ℤ × ℤ)) (st : DLState)
    (k : ℤ × ℤ × ℤ) (d : FileData) (h : st.fs k = some d) :
    ((l.foldl (processTile net zoom) st).fs k) = some d := by
  induction l generalizing st with
  | nil => exact h
  | cons p t ih => exact ih _ (processTile_inv_some net zoom st p k d h)

lemma processTile_inv_notreq (net : Net) (zoom : ℤ) (st : DLState) (xy : ℤ × ℤ)
    (k : ℤ × ℤ × ℤ) (d : FileData) (hfs : st.fs k = some d) (hreq : k ∉ st.reqs) :
    (processTile net zoom st xy).fs k = some d ∧ k ∉ (processTile net zoom st xy).reqs := by
  rcases eq_or_ne k (zoom, xy.1, xy.2) with rfl | hk
  · unfold processTile
    simp [hfs, hreq]
  · refine ⟨by rw [processTile_fs_other net zoom st xy k hk]; exact hfs, ?_⟩
    unfold processTile
    cases h1 : st.fs (zoom, xy.1, xy.2) with
    | some e => simp [h1, hreq]
    | none =>
      cases hnet : net zoom xy.1 xy.2 with
      | transportError =>
        simp [h1, hnet, download_tile_file, isTruthy, hreq, hk]
      | response ok c =>
        cases ok <;>
          simp [h1, hnet, download_tile_file, isTruthy, hreq, hk]

lemma foldl_inv_notreq (net : Net) (zoom : ℤ) (l : List (ℤ × ℤ)) (st : DLState)
    (k : ℤ × ℤ × ℤ) (d : FileData) (hfs : st.fs k = some d) (hreq : k ∉ st.reqs) :
    ((l.foldl (processTile net zoom) st).fs k) = some d ∧
      k ∉ (l.foldl (processTile net zoom) st).reqs := by
  induction l generalizing st with
  | nil => exact ⟨hfs, hreq⟩
  | cons p t ih =>
    obtain ⟨h1, h2⟩ := processTile_inv_notreq net zoom st p k d hfs hreq
    exact ih _ h1 h2

lemma processTile_key_some (net : Net) (zoom : ℤ) (st : DLState) (xy : ℤ × ℤ) :
    ((processTile net zoom st xy).fs (zoom, xy.1, xy.2)).isSome := by
  unfold processTile
  cases h1 : st.fs (zoom, xy.1, xy.2) with
  | some d => simp [h1]
  | none =>
    cases hnet : net zoom xy.1 xy.2 with
    | transportError =>
      simp [h1, hnet, download_tile_file, isTruthy, Function.update_same]
    | response ok c =>
      cases ok <;>
        simp [h1, hnet, download_tile_file, isTruthy, Function.update_same]

lemma foldl_isSome_of_mem (net : Net) (zoom : ℤ) (l : List (ℤ × ℤ)) (st : DLState)
    (p : ℤ × ℤ) (hp : p ∈ l) :
    (((l.foldl (processTile net zoom) st).fs (zoom, p.1, p.2)).isSome) := by
  induction l generalizing st with
  | nil => cases hp
  | cons q t ih =>
    rcases eq_or_ne p q with rfl | hpq
    · obtain ⟨d, hd⟩ := Option.isSome_iff_exists.mp (processTile_key_some net zoom st p)
      rw [List.foldl_cons, foldl_fs_some net zoom t _ _ d hd]
      rfl
    · exact ih _ ((List.mem_cons.mp hp).resolve_left hpq)

lemma processTile_key_blank (net : Net) (zoom : ℤ) (st : DLState) (xy : ℤ × ℤ)
    (h1 : st.fs (zoom, xy.1, xy.2) = none)
    (hf : fetch_failed (net zoom xy.1 xy.2) = true) :
    (processTile net zoom st xy).fs (zoom, xy.1, xy.2) = some (FileData.img blankTile) := by
  unfold processTile
  cases hnet : net zoom xy.1 xy.2 with
  | transportError =>
    simp [h1, hnet, download_tile_file, isTruthy, Function.update_same]
  | response ok c =>
    cases ok with
    | false => simp [h1, hnet, download_tile_file, isTruthy, Function.update_same]
    | true => rw [hnet] at hf; simp [fetch_failed] at hf

lemma foldl_blank_of_mem (net : Net) (zoom : ℤ) (l : List (ℤ × ℤ)) (st : DLState)
    (p : ℤ × ℤ) (hp : p ∈ l) (h1 : st.fs (zoom, p.1, p.2) = none)
    (hf : fetch_failed (net zoom p.1 p.2) = true) :
    ((l.foldl (processTile net zoom) st).fs (zoom, p.1, p.2)) =
      some (FileData.img blankTile) := by
  induction l generalizing st with
  | nil => cases hp
  | cons q t ih =>
    rcases eq_or_ne p q with rfl | hpq
    · exact foldl_fs_some net zoom t _ _ _ (processTile_key_blank net zoom st p h1 hf)
    · have hk : ((zoom, p.1, p.2) : ℤ × ℤ × ℤ) ≠ (zoom, q.1, q.2) :=
        fun hcontra => hpq (key_inj hcontra)
      have h1' : (processTile net zoom st q).fs (zoom, p.1, p.2) = none := by
        rw [processTile_fs_other net zoom st q _ hk]; exact h1
      exact ih _ ((List.mem_cons.mp hp).resolve_left hpq) h1'

lemma processTile_of_some (net : Net) (zoom : ℤ) (st : DLState) (xy : ℤ × ℤ)
    (h : ((st.fs (zoom, xy.1, xy.2)).isSome)) :
    processTile net zoom st xy = st := by
  unfold processTile
  simp [h]

lemma foldl_skip_all (net : Net) (zoom : ℤ) (l : List (ℤ × ℤ)) (st : DLState)
    (h : ∀ p ∈ l, ((st.fs (zoom, p.1, p.2)).isSome : Prop)) :
    l.foldl (processTile net zoom) st = st := by
  induction l with
  | nil => rfl
  | cons q t ih =>
    rw [List.foldl_cons, processTile_of_some net zoom st q (h q (List.mem_cons_self q t))]
    exact ih fun p hp => h p (List.mem_cons_of_mem q hp)

lemma mem_tileList {xmin xmax ymin ymax x y : ℤ} :
    ((x, y) : ℤ × ℤ) ∈ tileList xmin xmax ymin ymax ↔
      xmin ≤ x ∧ x ≤ xmax ∧ ymin ≤ y ∧ y ≤ ymax := by
  unfold tileList
  constructor
  · intro h
    obtain ⟨ix, hix, h2⟩ := List.mem_flatMap.mp h
    obtain ⟨iy, hiy, heq⟩ := List.mem_map.mp h2
    rw [List.mem_range] at hix hiy
    obtain ⟨hx, hy⟩ := Prod.ext_iff.mp heq
    simp only at hx hy
    omega
  · rintro ⟨h1, h2, h3, h4⟩
    refine List.mem_flatMap.mpr ⟨(x - xmin).toNat, ?_, List.mem_map.mpr
      ⟨(y - ymin).toNat, ?_, ?_⟩⟩
    · rw [List.mem_range]; omega
    · rw [List.mem_range]; omega
    · rw [Prod.mk.injEq]
      constructor <;> omega

/-- Claim C5: for a range of at most 500 tiles, after download_tiles_for_area every
tile file in the range exists, and every tile that was not cached and whose
fetch failed (transport error or non-success response) holds the white
all-ones 256 by 256 by 3 placeholder image. -/
theorem download_tiles_writes_all (net : Net) (fs : FS)
    (xmin xmax ymin ymax zoom : ℤ)
    (hcount : (xmax - xmin + 1) * (ymax - ymin + 1) ≤ 500) :
    ∀ x y, xmin ≤ x → x ≤ xmax → ymin ≤ y → y ≤ ymax →
      (((download_tiles_for_area net xmin xmax ymin ymax zoom fs).fs (zoom, x, y)).isSome) ∧
      (fs (zoom, x, y) = none → fetch_failed (net zoom x y) = true →
        (download_tiles_for_area net xmin xmax ymin ymax zoom fs).fs (zoom, x, y) =
          some (FileData.img blankTile)) := by
  intro x y hx1 hx2 hy1 hy2
  have hmem : ((x, y) : ℤ × ℤ) ∈ tileList xmin xmax ymin ymax :=
    mem_tileList.mpr ⟨hx1, hx2, hy1, hy2⟩
  have hrun : download_tiles_for_area net xmin xmax ymin ymax zoom fs =
      (tileList xmin xmax ymin ymax).foldl (processTile net zoom)
        { fs := fs, reqs := [], msgs := [] } := by
    unfold download_tiles_for_area
    rw [if_neg]
    rw [MAX_TILE_COUNT]
    omega
  rw [hrun]
  exact ⟨foldl_isSome_of_mem net zoom _ _ (x, y) hmem,
         fun h1 hf => foldl_blank_of_mem net zoom _ _ (x, y) hmem h1 hf⟩

/-- Witness for C5: a one-tile range with a failing network and an empty
cache ends with the placeholder on disk. -/
theorem download_tiles_writes_all_witness :
    ((0 : ℤ) - 0 + 1) * (0 - 0 + 1) ≤ 500 ∧
    (((download_tiles_for_area (fun _ _ _ => NetResult.transportError)
        0 0 0 0 0 (fun _ => none)).fs (0, 0, 0)).isSome) ∧
    (download_tiles_for_area (fun _ _ _ => NetResult.transportError)
        0 0 0 0 0 (fun _ => none)).fs (0, 0, 0) = some (FileData.img blankTile) := by
  have h := download_tiles_writes_all (fun _ _ _ => NetResult.transportError)
    (fun _ => none) 0 0 0 0 0 (by norm_num) 0 0 le_rfl le_rfl le_rfl le_rfl
  exact ⟨by norm_num, h.1, h.2 rfl rfl⟩

/-- Claim C6: tile fetching is an idempotent cache.  First, any file already
present is left unchanged and its key is never requested from the network.
Second, running download_tiles_for_area a second time over the same range
issues no network request at all and leaves the tile directory as the
first run left it. -/
theorem download_tiles_idempotent (net : Net) (fs : FS)
    (xmin xmax ymin ymax zoom : ℤ) :
    (∀ k d, fs k = some d →
      (download_tiles_for_area net xmin xmax ymin ymax zoom fs).fs k = some d ∧
      k ∉ (download_tiles_for_area net xmin xmax ymin ymax zoom fs).reqs) ∧
    (download_tiles_for_area net xmin xmax ymin ymax zoom
        (download_tiles_for_area net xmin xmax ymin ymax zoom fs).fs).reqs = [] ∧
    (download_tiles_for_area net xmin xmax ymin ymax zoom
        (download_tiles_for_area net xmin xmax ymin ymax zoom fs).fs).fs =
      (download_tiles_for_area net xmin xmax ymin ymax zoom fs).fs := by
  by_cases hbig : (xmax - xmin + 1) * (ymax - ymin + 1) > MAX_TILE_COUNT
  · have hrej : ∀ g : FS, download_tiles_for_area net xmin xmax ymin ymax zoom g =
        { fs := g, reqs := [], msgs := ["ERROR zoom value too high"] } := by
      intro g
      unfold download_tiles_for_area
      rw [if_pos hbig]
    simp only [hrej]
    exact ⟨fun k d hk => ⟨hk, List.not_mem_nil k⟩, by trivial, by trivial⟩
  · have hrun : ∀ g : FS, download_tiles_for_area net xmin xmax ymin ymax zoom g =
        (tileList xmin xmax ymin ymax).foldl (processTile net zoom)
          { fs := g, reqs := [], msgs := [] } := by
      intro g
      unfold download_tiles_for_area
      rw [if_neg hbig]
    refine ⟨?_, ?_⟩
    · intro k d hk
      rw [hrun]
      exact foldl_inv_notreq net zoom _ _ k d hk (List.not_mem_nil k)
    · have hall : ∀ p ∈ tileList xmin xmax ymin ymax,
          (((download_tiles_for_area net xmin xmax ymin ymax zoom fs).fs
              (zoom, p.1, p.2)).isSome : Prop) := by
        intro p hp
        rw [hrun]
        exact foldl_isSome_of_mem net zoom _ _ p hp
      rw [hrun ((download_tiles_for_area net xmin xmax ymin ymax zoom fs).fs)]
      rw [foldl_skip_all net zoom (tileList xmin xmax ymin ymax)
        { fs := (download_tiles_for_area net xmin xmax ymin ymax zoom fs).fs,
          reqs := [], msgs := [] } (fun p hp => hall p hp)]
      exact ⟨rfl, rfl⟩

/-- Witness for C6 with a cached file at key (0, 0, 0). -/
theorem download_tiles_idempotent_witness :
    ((fun k => if k = ((0 : ℤ), (0 : ℤ), (0 : ℤ)) then some (FileData.bytes [9]) else none) :
        FS) ((0 : ℤ), (0 : ℤ), (0 : ℤ)) = some (FileData.bytes [9]) ∧
    (download_tiles_for_area (fun _ _ _ => NetResult.response true [3]) 0 0 0 0 0
        (fun k => if k = ((0 : ℤ), (0 : ℤ), (0 : ℤ)) then some (FileData.bytes [9])
                  else none)).fs (0, 0, 0) = some (FileData.bytes [9]) ∧
    ((0 : ℤ), (0 : ℤ), (0 : ℤ)) ∉
      (download_tiles_for_area (fun _ _ _ => NetResult.response true [3]) 0 0 0 0 0
        (fun k => if k = ((0 : ℤ), (0 : ℤ), (0 : ℤ)) then some (FileData.bytes [9])
                  else none)).reqs ∧
    (download_tiles_for_area (fun _ _ _ => NetResult.response true [3]) 0 0 0 0 0
      (download_tiles_for_area (fun _ _ _ => NetResult.response true [3]) 0 0 0 0 0
        (fun k => if k = ((0 : ℤ), (0 : ℤ), (0 : ℤ)) then some (FileData.bytes [9])
                  else none)).fs).reqs = [] := by
  have h := download_tiles_idempotent (fun _ _ _ => NetResult.response true [3])
    (fun k => if k = ((0 : ℤ), (0 : ℤ), (0 : ℤ)) then some (FileData.bytes [9]) else none)
    0 0 0 0 0
  have hcache : ((fun k => if k = ((0 : ℤ), (0 : ℤ), (0 : ℤ))
      then some (FileData.bytes [9]) else none) : FS) ((0 : ℤ), (0 : ℤ), (0 : ℤ)) =
      some (FileData.bytes [9]) := by simp
  obtain ⟨h1, h2⟩ := h.1 ((0 : ℤ), (0 : ℤ), (0 : ℤ)) (FileData.bytes [9]) hcache
  exact ⟨hcache, h1, h2, h.2.1⟩

/-! Supertile assembly lemmas. -/

lemma writeTile_no (x_tile_min y_tile_min zoom : ℤ) (tiles : ℤ × ℤ × ℤ → Option Image)
    (acc : ℕ → ℕ → ℕ → ℝ) (p : ℤ × ℤ) (i j c : ℕ)
    (h : tiles (zoom, p.1, p.2) = none ∨ ¬(inBlock x_tile_min y_tile_min p i j ∧ c < 3)) :
    writeTile x_tile_min y_tile_min zoom tiles acc p i j c = acc i j c := by
  unfold writeTile
  cases htile : tiles (zoom, p.1, p.2) with
  | none => rfl
  | some timg =>
    rcases h with h | h
    · rw [htile] at h
      cases h
    · simp only [if_neg h]

lemma writeTile_yes (x_tile_min y_tile_min zoom : ℤ) (tiles : ℤ × ℤ × ℤ → Option Image)
    (acc : ℕ → ℕ → ℕ → ℝ) (p : ℤ × ℤ) (i j c : ℕ) (timg : Image)
    (htile : tiles (zoom, p.1, p.2) = some timg)
    (hin : inBlock x_tile_min y_tile_min p i j) (hc : c < 3) :
    writeTile x_tile_min y_tile_min zoom tiles acc p i j c =
      timg.px (i - ((p.2 - y_tile_min) * (OSM_TILE_SIZE : ℤ)).toNat)
              (j - ((p.1 - x_tile_min) * (OSM_TILE_SIZE : ℤ)).toNat) c := by
  unfold writeTile
  rw [htile]
  simp only [if_pos (And.intro hin hc)]

lemma foldl_writeTile_none (x_tile_min y_tile_min zoom : ℤ)
    (tiles : ℤ × ℤ × ℤ → Option Image) (l : List (ℤ × ℤ)) (acc : ℕ → ℕ → ℕ → ℝ)
    (i j c : ℕ)
    (h : ∀ p ∈ l, tiles (zoom, p.1, p.2) = none ∨
      ¬(inBlock x_tile_min y_tile_min p i j ∧ c < 3)) :
    (l.foldl (writeTile x_tile_min y_tile_min zoom tiles) acc) i j c = acc i j c := by
  induction l generalizing acc with
  | nil => rfl
  | cons q t ih =>
    rw [List.foldl_cons, ih _ fun p hp => h p (List.mem_cons_of_mem q hp)]
    exact writeTile_no x_tile_min y_tile_min zoom tiles acc q i j c
      (h q (List.mem_cons_self q t))

lemma foldl_writeTile_last (x_tile_min y_tile_min zoom : ℤ)
    (tiles : ℤ × ℤ × ℤ → Option Image) (l : List (ℤ × ℤ)) (acc : ℕ → ℕ → ℕ → ℝ)
    (i j c : ℕ) (p : ℤ × ℤ) (timg : Image)
    (hp : p ∈ l) (htile : tiles (zoom, p.1, p.2) = some timg)
    (hin : inBlock x_tile_min y_tile_min p i j) (hc : c < 3)
    (huniq : ∀ q ∈ l, (tiles (zoom, q.1, q.2)).isSome →
      inBlock x_tile_min y_tile_min q i j → q = p) :
    (l.foldl (writeTile x_tile_min y_tile_min zoom tiles) acc) i j c =
      timg.px (i - ((p.2 - y_tile_min) * (OSM_TILE_SIZE : ℤ)).toNat)
              (j - ((p.1 - x_tile_min) * (OSM_TILE_SIZE : ℤ)).toNat) c := by
  induction l generalizing acc with
  | nil => cases hp
  | cons q t ih =>
    rw [List.foldl_cons]
    by_cases hpt : p ∈ t
    · exact ih _ hpt fun r hr h1 h2 => huniq r (List.mem_cons_of_mem q hr) h1 h2
    · have hpq : p = q := (List.mem_cons.mp hp).resolve_right hpt
      subst hpq
      rw [foldl_writeTile_none x_tile_min y_tile_min zoom tiles t _ i j c ?_]
      · exact writeTile_yes x_tile_min y_tile_min zoom tiles acc p i j c timg htile hin hc
      · intro r hr
        cases htr : tiles (zoom, r.1, r.2) with
        | none => exact Or.inl rfl
        | some timg2 =>
          refine Or.inr ?_
          rintro ⟨hin2, -⟩
          have hrp : r = p :=
            huniq r (List.mem_cons_of_mem p hr) (by rw [htr]; rfl) hin2
          exact hpt (hrp ▸ hr)

lemma block_disjoint {x_tile_min x_tile_max y_tile_min y_tile_max : ℤ} {p q : ℤ × ℤ}
    (hp : p ∈ tileList x_tile_min x_tile_max y_tile_min y_tile_max)
    (hq : q ∈ tileList x_tile_min x_tile_max y_tile_min y_tile_max)
    {i j : ℕ} (hip : inBlock x_tile_min y_tile_min p i j)
    (hiq : inBlock x_tile_min y_tile_min q i j) : p = q := by
  obtain ⟨px, py⟩ := p
  obtain ⟨qx, qy⟩ := q
  obtain ⟨hp1, hp2, hp3, hp4⟩ := mem_tileList.mp hp
  obtain ⟨hq1, hq2, hq3, hq4⟩ := mem_tileList.mp hq
  unfold inBlock OSM_TILE_SIZE at hip hiq
  simp only at hip hiq
  rw [Prod.mk.injEq]
  omega

/-- Claim C3: combine_supertile returns a raster of exactly
((y_max-y_min+1)*256, (x_max-x_min+1)*256, 3); every pixel in the block of a
tile whose file is missing is exactly zero; and for every existing tile the
first three channels are copied to the block at offset
((y-y_min)*256, (x-x_min)*256). -/
theorem combine_supertile_correct (x_tile_min x_tile_max y_tile_min y_tile_max zoom : ℤ)
    (tiles : ℤ × ℤ × ℤ → Option Image)
    (hx : x_tile_min ≤ x_tile_max) (hy : y_tile_min ≤ y_tile_max) :
    (((combine_supertile x_tile_min x_tile_max y_tile_min y_tile_max zoom tiles).rows : ℤ) =
        (y_tile_max - y_tile_min + 1) * 256 ∧
      ((combine_supertile x_tile_min x_tile_max y_tile_min y_tile_max zoom tiles).cols : ℤ) =
        (x_tile_max - x_tile_min + 1) * 256 ∧
      (combine_supertile x_tile_min x_tile_max y_tile_min y_tile_max zoom tiles).channels = 3) ∧
    (∀ x y, x_tile_min ≤ x → x ≤ x_tile_max → y_tile_min ≤ y → y ≤ y_tile_max →
      (tiles (zoom, x, y) = none →
        ∀ di dj c, di < 256 → dj < 256 → c < 3 →
          (combine_supertile x_tile_min x_tile_max y_tile_min y_tile_max zoom tiles).px
            (((y - y_tile_min) * (OSM_TILE_SIZE : ℤ)).toNat + di)
            (((x - x_tile_min) * (OSM_TILE_SIZE : ℤ)).toNat + dj) c = 0) ∧
      (∀ timg, tiles (zoom, x, y) = some timg →
        ∀ di dj c, di < 256 → dj < 256 → c < 3 →
          (combine_supertile x_tile_min x_tile_max y_tile_min y_tile_max zoom tiles).px
            (((y - y_tile_min) * (OSM_TILE_SIZE : ℤ)).toNat + di)
            (((x - x_tile_min) * (OSM_TILE_SIZE : ℤ)).toNat + dj) c = timg.px di dj c)) := by
  constructor
  · refine ⟨?_, ?_, rfl⟩ <;>
      · show ((_ * (OSM_TILE_SIZE : ℤ)).toNat : ℤ) = _
        unfold OSM_TILE_SIZE
        omega
  · intro x y hx1 hx2 hy1 hy2
    have hmem : ((x, y) : ℤ × ℤ) ∈ tileList x_tile_min x_tile_max y_tile_min y_tile_max :=
      mem_tileList.mpr ⟨hx1, hx2, hy1, hy2⟩
    constructor
    · intro hnone di dj c hdi hdj hc
      show ((tileList x_tile_min x_tile_max y_tile_min y_tile_max).foldl
        (writeTile x_tile_min y_tile_min zoom tiles) (fun _ _ _ => 0)) _ _ _ = 0
      rw [foldl_writeTile_none x_tile_min y_tile_min zoom tiles _ _ _ _ _ ?_]
      intro q hq
      cases htq : tiles (zoom, q.1, q.2) with
      | none => exact Or.inl rfl
      | some timg2 =>
        refine Or.inr ?_
        rintro ⟨hinq, -⟩
        have hinp : inBlock x_tile_min y_tile_min (x, y)
            (((y - y_tile_min) * (OSM_TILE_SIZE : ℤ)).toNat + di)
            (((x - x_tile_min) * (OSM_TILE_SIZE : ℤ)).toNat + dj) := by
          unfold inBlock OSM_TILE_SIZE
          simp only
          omega
        have hqxy : q = (x, y) := block_disjoint hq hmem hinq hinp
        subst hqxy
        dsimp only at htq
        rw [hnone] at htq
        cases htq
    · intro timg htile di dj c hdi hdj hc
      show ((tileList x_tile_min x_tile_max y_tile_min y_tile_max).foldl
        (writeTile x_tile_min y_tile_min zoom tiles) (fun _ _ _ => 0)) _ _ _ = _
      have hinp : inBlock x_tile_min y_tile_min (x, y)
          (((y - y_tile_min) * (OSM_TILE_SIZE : ℤ)).toNat + di)
          (((x - x_tile_min) * (OSM_TILE_SIZE : ℤ)).toNat + dj) := by
        unfold inBlock OSM_TILE_SIZE
        simp only
        omega
      rw [foldl_writeTile_last x_tile_min y_tile_min zoom tiles _ _ _ _ _ (x, y) timg
        hmem htile hinp hc (fun q hq h1 h2 => block_disjoint hq hmem h2 hinp)]
      simp only [Nat.add_sub_cancel_left]

/-- Witness for C3 on a one-tile range with one present tile. -/
theorem combine_supertile_correct_witness :
    (0 : ℤ) ≤ 0 ∧
    (((combine_supertile 0 0 0 0 0
        (fun _ => some blankTile)).rows : ℤ) = (0 - 0 + 1) * 256) ∧
    (combine_supertile 0 0 0 0 0 (fun _ => some blankTile)).px 5 7 2 = blankTile.px 5 7 2 := by
  have h := combine_supertile_correct 0 0 0 0 0 (fun _ => some blankTile) le_rfl le_rfl
  refine ⟨le_rfl, h.1.1, ?_⟩
  have h2 := (h.2 0 0 le_rfl le_rfl le_rfl le_rfl).2 blankTile rfl 5 7 2
    (by norm_num) (by norm_num) (by norm_num)
  simpa using h2

/-! Feature lookup client and main pipeline theorems. -/

/-- Claim C7, evaluation at the failing input: with a server that answers every
lookup with an empty JSON array (the id-not-found case, yielding the default
empty geometry), download_map_data_nominatim on way ids 1 and 2 issues only
the first lookup and aborts with KeyError on the coordinates access, instead
of contributing zero coordinates and continuing. -/
theorem download_map_data_aborts_on_empty_geometry :
    download_map_data_nominatim (fun _ _ => LookupResp.resp true (Body.arr [])) [1, 2] [] =
      ([("W", 1)], Except.error "KeyError: coordinates") := rfl

/-- Counterexample to claim C8: the claim that transport and parse errors are
recovered locally by substituting the default empty geometry is false; at a
transport error, and at a response whose body fails to parse,
lookup_geojson_by_id propagates an exception instead of returning a value. -/
theorem lookup_geojson_propagates_errors :
    lookup_geojson_by_id LookupResp.transportError =
      Except.error "requests.exceptions.RequestException" ∧
    lookup_geojson_by_id (LookupResp.resp true Body.malformed) =
      Except.error "json.JSONDecodeError" :=
  ⟨rfl, rfl⟩

/-- Amended claim C8: lookup_geojson_by_id returns the default empty geometry
exactly when the response is a non-success response (any body) or a
well-formed empty array; transport errors and parse failures are not
caught and propagate to the caller. -/
theorem lookup_geojson_default_cases :
    (∀ b : Body, lookup_geojson_by_id (LookupResp.resp false b) =
      Except.ok { dtype := "", geojson := emptyGeo }) ∧
    lookup_geojson_by_id (LookupResp.resp true (Body.arr [])) =
      Except.ok { dtype := "", geojson := emptyGeo } ∧
    lookup_geojson_by_id LookupResp.transportError =
      Except.error "requests.exceptions.RequestException" ∧
    lookup_geojson_by_id (LookupResp.resp true Body.malformed) =
      Except.error "json.JSONDecodeError" :=
  ⟨fun _ => rfl, rfl, rfl, rfl⟩

/-- Counterexample to claim C9: the zoom level used by the main pipeline is not
derived via calculate_zoom_level; at this bounding box calculate_zoom_level
yields 4 while main uses 17, and main has no caller-supplied zoom. -/
theorem main_zoom_not_derived :
    (main_compute [((0 : ℝ), (0 : ℝ)), (21.2627875, 45)]).map MainCalc.zoom_level =
      Except.ok 17 ∧
    calculate_zoom_level 0 21.2627875 0 45 = 4 ∧ (17 : ℕ) ≠ 4 := by
  refine ⟨rfl, ?_, by norm_num⟩
  have h8a : (360 : ℝ) / (45 - 0) = 8 := by norm_num
  have h8b : (170.1023 : ℝ) / (21.2627875 - 0) = 8 := by norm_num
  have hlog : Real.logb 2 (8 : ℝ) = 3 := by
    rw [show (8 : ℝ) = 2 ^ (3 : ℕ) by norm_num, Real.logb_pow,
      Real.logb_self_eq_one (by norm_num)]
    norm_num
  have hceil : ⌈(3 : ℝ)⌉ = 3 := by norm_num
  unfold calculate_zoom_level
  rw [h8a, h8b, hlog, hceil]
  rw [show (max (min (min (((3 : ℤ) : ℝ)) (((3 : ℤ) : ℝ)) + 1) 18) 0) = (((4 : ℤ) : ℝ)) by
    push_cast
    norm_num]
  exact pyTrunc_intCast 4

/-- Amended claim C9: in main the zoom level is the hardcoded constant 17 (the
calculate_zoom_level call is commented out and no caller override exists),
and the tile range corners are deg2tile_coord of the bounding box corners
at that constant zoom. -/
theorem main_zoom_is_constant (wc : List (ℝ × ℝ)) (mc : MainCalc)
    (h : main_compute wc = Except.ok mc) :
    mc.zoom_level = 17 ∧
    (mc.x_tile_min, mc.y_tile_max) = deg2tile_coord mc.min_lat mc.min_lon 17 ∧
    (mc.x_tile_max, mc.y_tile_min) = deg2tile_coord mc.max_lat mc.max_lon 17 := by
  cases wc with
  | nil => simp [main_compute] at h
  | cons c rest =>
    simp only [main_compute] at h
    injection h with h
    subst h
    exact ⟨rfl, rfl, rfl⟩

/-- Witness for C9 amended on the singleton coordinate list. -/
theorem main_zoom_is_constant_witness :
    main_compute [((0 : ℝ), (0 : ℝ))] = Except.ok
      { min_lon := 0, max_lon := 0, min_lat := 0, max_lat := 0, zoom_level := 17,
        x_tile_min := (deg2tile_coord 0 0 17).1, y_tile_max := (deg2tile_coord 0 0 17).2,
        x_tile_max := (deg2tile_coord 0 0 17).1, y_tile_min := (deg2tile_coord 0 0 17).2 } ∧
    ({ min_lon := 0, max_lon := 0, min_lat := 0, max_lat := 0, zoom_level := 17,
        x_tile_min := (deg2tile_coord 0 0 17).1, y_tile_max := (deg2tile_coord 0 0 17).2,
        x_tile_max := (deg2tile_coord 0 0 17).1,
        y_tile_min := (deg2tile_coord 0 0 17).2 } : MainCalc).zoom_level = 17 :=
  ⟨rfl, (main_zoom_is_constant [((0 : ℝ), (0 : ℝ))]
      { min_lon := 0, max_lon := 0, min_lat := 0, max_lat := 0, zoom_level := 17,
        x_tile_min := (deg2tile_coord 0 0 17).1, y_tile_max := (deg2tile_coord 0 0 17).2,
        x_tile_max := (deg2tile_coord 0 0 17).1,
        y_tile_min := (deg2tile_coord 0 0 17).2 } rfl).1⟩

/-- Claim C10: two runs of the pipeline over manifests with identical way id lists
and arbitrary node id lists produce, when both downloads succeed, identical
way coordinate lists and hence identical bounding boxes, zoom level and tile
range in main_compute: the node ids never influence the map extent. -/
theorem way_bbox_independent_of_nodes (net : LookupNet)
    (ways nodes1 nodes2 : List ℤ) (d1 d2 : DataDict)
    (h1 : (download_map_data_nominatim net ways nodes1).2 = Except.ok d1)
    (h2 : (download_map_data_nominatim net ways nodes2).2 = Except.ok d2) :
    d1.way_coords = d2.way_coords ∧
    main_compute d1.way_coords = main_compute d2.way_coords := by
  unfold download_map_data_nominatim at h1 h2
  rcases hw : runIds net "W" ways with ⟨wreqs, wres⟩
  rw [hw] at h1 h2
  cases wres with
  | error e => simp at h1
  | ok w =>
    rcases hn1 : runIds net "N" nodes1 with ⟨nreqs1, nres1⟩
    rw [hn1] at h1
    cases nres1 with
    | error e => simp at h1
    | ok n1 =>
      rcases hn2 : runIds net "N" nodes2 with ⟨nreqs2, nres2⟩
      rw [hn2] at h2
      cases nres2 with
      | error e => simp at h2
      | ok n2 =>
        simp only at h1 h2
        injection h1 with h1
        injection h2 with h2
        subst h1
        subst h2
        exact ⟨rfl, rfl⟩

/-- Witness for C10: way id 5 with node lists empty versus containing 7. -/
theorem way_bbox_independent_of_nodes_witness :
    (download_map_data_nominatim
        (fun _ _ => LookupResp.resp true (Body.arr
          [{ etype := some "residential",
             egeo := some { coordinates := some [((1 : ℝ), (2 : ℝ))] } }])) [5] []).2 =
      Except.ok
        { ways := [(5, { dtype := "residential",
                         geojson := { coordinates := some [((1 : ℝ), (2 : ℝ))] } })],
          nodes := [], way_coords := [((1 : ℝ), (2 : ℝ))], node_coords := [] } ∧
    (download_map_data_nominatim
        (fun _ _ => LookupResp.resp true (Body.arr
          [{ etype := some "residential",
             egeo := some { coordinates := some [((1 : ℝ), (2 : ℝ))] } }])) [5] [7]).2 =
      Except.ok
        { ways := [(5, { dtype := "residential",
                         geojson := { coordinates := some [((1 : ℝ), (2 : ℝ))] } })],
          nodes := [(7, { dtype := "residential",
                          geojson := { coordinates := some [((1 : ℝ), (2 : ℝ))] } })],
          way_coords := [((1 : ℝ), (2 : ℝ))], node_coords := [((1 : ℝ), (2 : ℝ))] } ∧
    ({ ways := [(5, { dtype := "residential",
                      geojson := { coordinates := some [((1 : ℝ), (2 : ℝ))] } })],
       nodes := [], way_coords := [((1 : ℝ), (2 : ℝ))],
       node_coords := [] } : DataDict).way_coords =
      ({ ways := [(5, { dtype := "residential",
                        geojson := { coordinates := some [((1 : ℝ), (2 : ℝ))] } })],
         nodes := [(7, { dtype := "residential",
                         geojson := { coordinates := some [((1 : ℝ), (2 : ℝ))] } })],
         way_coords := [((1 : ℝ), (2 : ℝ))],
         node_coords := [((1 : ℝ), (2 : ℝ))] } : DataDict).way_coords :=
  ⟨rfl, rfl,
   (way_bbox_independent_of_nodes
      (fun _ _ => LookupResp.resp true (Body.arr
        [{ etype := some "residential",
           egeo := some { coordinates := some [((1 : ℝ), (2 : ℝ))] } }])) [5] [] [7]
      { ways := [(5, { dtype := "residential",
                       geojson := { coordinates := some [((1 : ℝ), (2 : ℝ))] } })],
        nodes := [], way_coords := [((1 : ℝ), (2 : ℝ))], node_coords := [] }
      { ways := [(5, { dtype := "residential",
                       geojson := { coordinates := some [((1 : ℝ), (2 : ℝ))] } })],
        nodes := [(7, { dtype := "residential",
                        geojson := { coordinates := some [((1 : ℝ), (2 : ℝ))] } })],
        way_coords := [((1 : ℝ), (2 : ℝ))],
        node_coords := [((1 : ℝ), (2 : ℝ))] } rfl rfl).1⟩

/-! Projection round trip: supporting lemmas for claim C1. -/

lemma lat_rad_lt (lat : ℝ) (h2 : lat < 90) : lat * π / 180 < π / 2 := by
  have hπ := Real.pi_pos
  rw [div_lt_div_iff₀ (by norm_num) (by norm_num : (0:ℝ) < 2)]
  nlinarith

lemma neg_lat_rad_lt (lat : ℝ) (h1 : -90 < lat) : -(π / 2) < lat * π / 180 := by
  have hπ := Real.pi_pos
  have := lat_rad_lt (-lat) (by linarith)
  have heq : -lat * π / 180 = -(lat * π / 180) := by ring
  rw [heq] at this
  linarith

lemma gRad_deg2xy (lat lon : ℝ) (zoom : ℕ) (h1 : -90 < lat) (h2 : lat < 90) :
    gRad ((deg2xy lat lon zoom).2) zoom = lat * π / 180 := by
  have hπ := Real.pi_pos
  have hx1 : -(π/2) < lat * π / 180 := neg_lat_rad_lt lat h1
  have hx2 : lat * π / 180 < π/2 := lat_rad_lt lat h2
  have hcos : 0 < Real.cos (lat * π / 180) := Real.cos_pos_of_mem_Ioo ⟨hx1, hx2⟩
  have hsqrt : Real.sqrt (1 + Real.tan (lat * π / 180) ^ 2) =
      (Real.cos (lat * π / 180))⁻¹ := by
    rw [← Real.inv_sqrt_one_add_tan_sq hcos, inv_inv]
  have hlog : Real.log (Real.tan (lat * π / 180) + 1 / Real.cos (lat * π / 180)) =
      Real.arsinh (Real.tan (lat * π / 180)) := by
    unfold Real.arsinh
    rw [hsqrt, one_div]
  unfold gRad deg2xy
  simp only
  have hn : ((2:ℝ) ^ zoom) ≠ 0 := by positivity
  have harg : π * (1 - 2 * ((1 - Real.log (Real.tan (lat*π/180) + 1 / Real.cos (lat*π/180)) / π)
      / 2 * 2 ^ zoom) / 2 ^ zoom) =
      Real.log (Real.tan (lat*π/180) + 1 / Real.cos (lat*π/180)) := by
    field_simp
    ring
  rw [harg, hlog, Real.sinh_arsinh, Real.arctan_tan hx1 hx2]

lemma gRad_anti {zoom : ℕ} {t1 t2 : ℝ} (h : t1 ≤ t2) : gRad t2 zoom ≤ gRad t1 zoom := by
  unfold gRad
  apply Real.arctan_strictMono.monotone
  rw [Real.sinh_le_sinh]
  have hn : (0:ℝ) < 2 ^ zoom := by positivity
  have hπ := Real.pi_pos
  rw [mul_le_mul_left hπ]
  have h2 : 2 * t1 / 2 ^ zoom ≤ 2 * t2 / 2 ^ zoom := by
    gcongr
  linarith

lemma num2deg_lat (x y : ℤ) (zoom : ℕ) :
    (num2deg x y zoom).1 = gRad (y : ℝ) zoom * 180 / π := rfl

/-- Claim C1, amended: for latitudes strictly between the poles whose Web
Mercator global y coordinate is nonnegative (latitude at or below the
northern slippy-map limit, about 85.05 degrees), the degrees to tile index
to degrees round trip has the claimed bounded error: the longitude moves
west by less than one tile width and the latitude lies between the
recovered NW corner latitude and the southern tile edge latitude. -/
theorem roundtrip_bounded (lat lon : ℝ) (zoom : ℕ)
    (hlat : |lat| < 90) (hlon1 : -180 ≤ lon) (hlon2 : lon < 180) (hzoom : zoom ≤ 18)
    (hy : 0 ≤ (deg2xy lat lon zoom).2) :
    roundtrip_claim lat lon zoom := by
  obtain ⟨h1, h2⟩ : -90 < lat ∧ lat < 90 := abs_lt.mp hlat
  have hπ := Real.pi_pos
  have hn : (0:ℝ) < 2 ^ zoom := by positivity
  have hx0 : 0 ≤ (deg2xy lat lon zoom).1 := by
    unfold deg2xy
    simp only
    apply mul_nonneg (div_nonneg (by linarith) (by norm_num)) hn.le
  have hxt : (deg2tile_coord lat lon zoom).1 = ⌊(deg2xy lat lon zoom).1⌋ := by
    unfold deg2tile_coord
    simp only
    exact pyTrunc_of_nonneg hx0
  have hyt : (deg2tile_coord lat lon zoom).2 = ⌊(deg2xy lat lon zoom).2⌋ := by
    unfold deg2tile_coord
    simp only
    exact pyTrunc_of_nonneg hy
  unfold roundtrip_claim
  rw [hxt, hyt]
  set x := (deg2xy lat lon zoom).1 with hxdef
  set yf := (deg2xy lat lon zoom).2 with hydef
  have hxval : x = (lon + 180) / 360 * 2 ^ zoom := rfl
  have hlon' : (num2deg ⌊x⌋ ⌊yf⌋ zoom).2 = (⌊x⌋ : ℝ) / 2 ^ zoom * 360 - 180 := rfl
  have hkey : lon - ((⌊x⌋ : ℝ) / 2 ^ zoom * 360 - 180) = (x - ⌊x⌋) * (360 / 2 ^ zoom) := by
    rw [hxval]
    field_simp
    ring
  have hfl := Int.floor_le x
  have hfu := Int.lt_floor_add_one x
  refine ⟨?_, ?_, ?_, ?_⟩
  · rw [hlon', hkey]
    apply mul_nonneg (by linarith) (by positivity)
  · rw [hlon', hkey]
    calc (x - ⌊x⌋) * (360 / 2 ^ zoom) ≤ 1 * (360 / 2 ^ zoom) := by
          apply mul_le_mul_of_nonneg_right (by linarith) (by positivity)
      _ = 360 / 2 ^ zoom := one_mul _
  · have hS : (num2deg ⌊x⌋ (⌊yf⌋ + 1) zoom).1 = gRad ((⌊yf⌋ : ℝ) + 1) zoom * 180 / π := by
      rw [num2deg_lat]
      push_cast
      ring_nf
    have hmono : gRad ((⌊yf⌋ : ℝ) + 1) zoom ≤ gRad yf zoom :=
      gRad_anti (by linarith [Int.lt_floor_add_one yf])
    have hyfval := gRad_deg2xy lat lon zoom h1 h2
    rw [← hydef] at hyfval
    have hlatval : gRad yf zoom * 180 / π = lat := by
      rw [hyfval]
      field_simp
    have hble : (num2deg ⌊x⌋ (⌊yf⌋ + 1) zoom).1 ≤ lat := by
      rw [hS, ← hlatval]
      gcongr
    exact le_trans (min_le_left _ _) hble
  · have hN : (num2deg ⌊x⌋ ⌊yf⌋ zoom).1 = gRad ((⌊yf⌋ : ℝ)) zoom * 180 / π :=
      num2deg_lat _ _ _
    have hmono : gRad yf zoom ≤ gRad ((⌊yf⌋ : ℝ)) zoom := gRad_anti (Int.floor_le yf)
    have hyfval := gRad_deg2xy lat lon zoom h1 h2
    rw [← hydef] at hyfval
    have hlatval : gRad yf zoom * 180 / π = lat := by
      rw [hyfval]
      field_simp
    have hble : lat ≤ (num2deg ⌊x⌋ ⌊yf⌋ zoom).1 := by
      rw [hN, ← hlatval]
      gcongr
    exact le_trans hble (le_max_right _ _)

/-- Witness for the amended claim C1 at the equator. -/
theorem roundtrip_bounded_witness :
    |(0 : ℝ)| < 90 ∧ -180 ≤ (0 : ℝ) ∧ (0 : ℝ) < 180 ∧ (0 : ℕ) ≤ 18 ∧
      0 ≤ (deg2xy 0 0 0).2 ∧ roundtrip_claim 0 0 0 := by
  have hy : 0 ≤ (deg2xy 0 0 0).2 := by
    have h0 : (0:ℝ) * π / 180 = 0 := by ring
    unfold deg2xy
    simp only [h0, Real.tan_zero, Real.cos_zero]
    norm_num [Real.log_one]
  exact ⟨by norm_num, by norm_num, by norm_num, by norm_num, hy,
    roundtrip_bounded 0 0 0 (by norm_num) (by norm_num) (by norm_num) (by norm_num) hy⟩

/-! Numeric estimates for the claim C1 counterexample at latitude 89. -/

lemma exp_pi_lt_55 : Real.exp π < 54.7 := by
  have h4 : Real.exp 4 = Real.exp 1 ^ 4 := by
    rw [← Real.exp_nat_mul]
    norm_num
  have hlt : Real.exp π < Real.exp 4 :=
    Real.exp_lt_exp.mpr (by linarith [Real.pi_lt_d2])
  have hpow : Real.exp 1 ^ 4 < 2.7182818286 ^ 4 :=
    pow_lt_pow_left Real.exp_one_lt_d9 (Real.exp_pos 1).le (by norm_num)
  have hval : (2.7182818286 : ℝ) ^ 4 < 54.7 := by norm_num
  linarith [h4 ▸ hlt]

lemma sinh_pi_lt : Real.sinh π < 27.35 := by
  rw [Real.sinh_eq]
  have h1 := exp_pi_lt_55
  have h2 : 0 < Real.exp (-π) := Real.exp_pos _
  linarith

lemma exp_nine_gt : (115 : ℝ) < Real.exp 9 := by
  have h9 : Real.exp 9 = Real.exp 1 ^ 9 := by
    rw [← Real.exp_nat_mul]
    norm_num
  have hpow : (2.7182818283 : ℝ) ^ 9 < Real.exp 1 ^ 9 :=
    pow_lt_pow_left Real.exp_one_gt_d9 (by norm_num) (by norm_num)
  have hval : (115 : ℝ) < 2.7182818283 ^ 9 := by norm_num
  linarith [h9 ▸ hpow]

lemma sin_d1_bounds : 0.0174 < Real.sin (π / 180) ∧ Real.sin (π / 180) < 0.0175 := by
  have hπ1 := Real.pi_gt_d2
  have hπ2 := Real.pi_lt_d2
  have hpos : (0 : ℝ) < π / 180 := by positivity
  constructor
  · have hcube := Real.sin_gt_sub_cube hpos (by linarith)
    have hc : (π / 180) ^ 3 ≤ (0.0175 : ℝ) ^ 3 := by
      apply pow_le_pow_left (by positivity) (by linarith)
    nlinarith
  · have := Real.sin_lt hpos
    linarith

lemma cos_d1_gt : 1 / 2 < Real.cos (π / 180) := by
  have hπ1 := Real.pi_gt_d2
  have hπ2 := Real.pi_lt_d2
  have h := Real.cos_lt_cos_of_nonneg_of_le_pi (by positivity : (0:ℝ) ≤ π / 180)
    (by linarith : π / 3 ≤ π) (by linarith : π / 180 < π / 3)
  rw [Real.cos_pi_div_three] at h
  exact h

lemma tan89_eq : Real.tan (89 * π / 180) = Real.cos (π / 180) / Real.sin (π / 180) := by
  have h89 : (89 : ℝ) * π / 180 = π / 2 - π / 180 := by ring
  rw [h89, Real.tan_eq_sin_div_cos, Real.sin_pi_div_two_sub, Real.cos_pi_div_two_sub]

lemma cos89_eq : Real.cos (89 * π / 180) = Real.sin (π / 180) := by
  have h89 : (89 : ℝ) * π / 180 = π / 2 - π / 180 := by ring
  rw [h89, Real.cos_pi_div_two_sub]

lemma tan89_gt : (28 : ℝ) < Real.tan (89 * π / 180) := by
  obtain ⟨hs1, hs2⟩ := sin_d1_bounds
  have hc := cos_d1_gt
  rw [tan89_eq, lt_div_iff (by linarith)]
  nlinarith

lemma tan89_lt : Real.tan (89 * π / 180) < 57.5 := by
  obtain ⟨hs1, hs2⟩ := sin_d1_bounds
  have hc := Real.cos_le_one (π / 180)
  rw [tan89_eq, div_lt_iff (by linarith)]
  nlinarith

lemma sec89_gt : (57 : ℝ) < 1 / Real.cos (89 * π / 180) := by
  obtain ⟨hs1, hs2⟩ := sin_d1_bounds
  rw [cos89_eq, lt_div_iff (by linarith)]
  nlinarith

lemma sec89_lt : 1 / Real.cos (89 * π / 180) < 57.5 := by
  obtain ⟨hs1, hs2⟩ := sin_d1_bounds
  rw [cos89_eq, div_lt_iff (by linarith)]
  nlinarith

lemma log89_gt_pi :
    π < Real.log (Real.tan (89 * π / 180) + 1 / Real.cos (89 * π / 180)) := by
  have h1 := tan89_gt
  have h2 := sec89_gt
  rw [Real.lt_log_iff_exp_lt (by linarith)]
  have := exp_pi_lt_55
  linarith

lemma log89_lt_3pi :
    Real.log (Real.tan (89 * π / 180) + 1 / Real.cos (89 * π / 180)) < 3 * π := by
  have h1 := tan89_lt
  have h2 := sec89_lt
  have h3 := tan89_gt
  have h4 := sec89_gt
  rw [Real.log_lt_iff_lt_exp (by linarith)]
  have h5 : Real.exp 9 ≤ Real.exp (3 * π) :=
    Real.exp_le_exp.mpr (by linarith [Real.pi_gt_three])
  have := exp_nine_gt
  linarith

lemma tile89 : deg2tile_coord 89 0 0 = (0, 0) := by
  have hπ := Real.pi_pos
  have hL1 := log89_gt_pi
  have hL2 := log89_lt_3pi
  have hq1 : 1 < Real.log (Real.tan (89 * π / 180) + 1 / Real.cos (89 * π / 180)) / π :=
    (one_lt_div hπ).mpr hL1
  have hq2 : Real.log (Real.tan (89 * π / 180) + 1 / Real.cos (89 * π / 180)) / π < 3 :=
    (div_lt_iff hπ).mpr (by linarith)
  have hx : (deg2xy 89 0 0).1 = 1 / 2 := by
    unfold deg2xy
    norm_num
  have hyv : (deg2xy 89 0 0).2 =
      (1 - Real.log (Real.tan (89 * π / 180) + 1 / Real.cos (89 * π / 180)) / π) / 2 := by
    unfold deg2xy
    norm_num
  unfold deg2tile_coord
  rw [Prod.mk.injEq]
  constructor
  · rw [hx]
    unfold pyTrunc
    rw [if_pos (by norm_num)]
    norm_num
  · rw [hyv]
    unfold pyTrunc
    rw [if_neg (by linarith)]
    rw [Int.ceil_eq_zero_iff, Set.mem_Ioc]
    exact ⟨by linarith, by linarith⟩

lemma latN89_lt : (num2deg 0 0 0).1 < 89 := by
  have hπ := Real.pi_pos
  have hval : (num2deg 0 0 0).1 = Real.arctan (Real.sinh π) * 180 / π := by
    unfold num2deg
    norm_num
  have h1 : Real.sinh π < Real.tan (89 * π / 180) := by
    have := sinh_pi_lt
    have := tan89_gt
    linarith
  have h2 : Real.arctan (Real.sinh π) < 89 * π / 180 := by
    have h3 := Real.arctan_strictMono h1
    rwa [Real.arctan_tan (by linarith) (by linarith)] at h3
  rw [hval]
  have h4 : Real.arctan (Real.sinh π) * 180 / π < (89 * π / 180) * 180 / π := by
    gcongr
  have h5 : (89 * π / 180) * 180 / π = 89 := by
    field_simp
  linarith

lemma latS89_lt : (num2deg 0 (0 + 1) 0).1 < 0 := by
  have hπ := Real.pi_pos
  have harcpos : 0 < Real.arctan (Real.sinh π) := by
    have h1 : Real.sinh 0 < Real.sinh π := Real.sinh_lt_sinh.mpr hπ
    rw [Real.sinh_zero] at h1
    have h2 := Real.arctan_strictMono h1
    rwa [Real.arctan_zero] at h2
  have hval : (num2deg 0 (0 + 1) 0).1 = -(Real.arctan (Real.sinh π) * 180 / π) := by
    unfold num2deg
    rw [show (π * (1 - 2 * (((0 : ℤ) + 1 : ℤ) : ℝ) / 2 ^ (0 : ℕ))) = -π by push_cast; ring]
    rw [Real.sinh_neg, Real.arctan_neg]
    ring
  rw [hval]
  have hd : 0 < Real.arctan (Real.sinh π) * 180 / π := by positivity
  linarith

/-- Counterexample to claim C1 as stated: at latitude 89 (inside the claimed
domain, absolute value below 90), longitude 0 and zoom 0, the round-trip
property fails: the tile index computed by deg2tile_coord is (0, 0), whose
NW corner latitude is about 85.05 degrees and whose southern edge latitude
is about -85.05 degrees, so latitude 89 does not lie between them. -/
theorem roundtrip_counterexample : ¬ roundtrip_claim 89 0 0 := by
  intro h
  unfold roundtrip_claim at h
  rw [tile89] at h
  obtain ⟨-, -, -, h4⟩ := h
  simp only at h4
  have hmax : max ((num2deg 0 (0 + 1) 0).1) ((num2deg 0 0 0).1) < 89 :=
    max_lt (by linarith [latS89_lt]) latN89_lt
  linarith

end MapPlotter
